import Mathlib

/-!
Verification of the codegraph analysis pipeline.

Each definition below is a shallow embedding of a function of the repository,
named after its source symbol.  The main sources embedded here are
src/analyzer/types.ts (data model), src/analyzer/entry-points.ts (entry-point
matching and reachability propagation), src/analyzer/output.ts together with the
graph-builder module (cluster building, statistics, graph assembly),
src/analyzer/go/go-analyzer.ts (the Go pipeline post-filter),
src/analyzer/go/go-helper/main.go (the Go helper), the TypeScript parameter
checker (ts-param-checker) and the TypeScript call resolver (ts-call-resolver).

Where a source name is a Lean keyword the constructor carries a short suffix.
-/

namespace Codegraph

/-- Supported languages for analysis (types.ts, Language). -/
inductive Language where
  | typescript
  | go
  | python
deriving DecidableEq, Repr

/-- The kind of callable unit (types.ts, FunctionKind; the Go helper also emits
the synthetic kind init for var-init nodes). -/
inductive FunctionKind where
  | function
  | method
  | constructorK
  | arrow
  | closure
  | lambda
  | init
deriving DecidableEq, Repr

/-- Visibility level of a function (types.ts, Visibility). -/
inductive Visibility where
  | exported
  | publicV
  | privateV
  | internal
  | module
deriving DecidableEq, Repr

/-- Status of a node in the call graph (types.ts, NodeStatus). -/
inductive NodeStatus where
  | live
  | dead
  | entry
deriving DecidableEq, Repr

/-- Color derived from node status (types.ts, NodeColor). -/
inductive NodeColor where
  | green
  | red
  | yellow
  | orange
  | blue
deriving DecidableEq, Repr

/-- The nature of a call edge.  types.ts lists direct, method, constructor,
callback and dynamic; the Go helper additionally emits interface, funcref,
varinit and provided edges. -/
inductive EdgeKind where
  | direct
  | method
  | interfaceK
  | constructorK
  | callback
  | funcref
  | varinit
  | provided
  | dynamic
deriving DecidableEq, Repr

/-- A function parameter (types.ts, Parameter). -/
structure Parameter where
  name : String
  type : Option String
  isUsed : Bool
  position : Nat
deriving DecidableEq, Repr

/-- A function/method node in the call graph (types.ts, GraphNode).  The
optional decorators field is modelled as a list that is empty when absent. -/
structure GraphNode where
  id : String
  name : String
  qualifiedName : String
  filePath : String
  startLine : Nat
  endLine : Nat
  language : Language
  kind : FunctionKind
  visibility : Visibility
  isEntryPoint : Bool
  parameters : List Parameter
  unusedParameters : List String
  packageOrModule : String
  linesOfCode : Nat
  status : NodeStatus
  color : NodeColor
  decorators : List String
deriving DecidableEq, Repr

/-- Location of a call site (types.ts, CallSite). -/
structure CallSite where
  filePath : String
  line : Nat
  column : Nat
deriving DecidableEq, Repr

/-- A directed edge representing a function call (types.ts, GraphEdge). -/
structure GraphEdge where
  source : String
  target : String
  callSite : CallSite
  kind : EdgeKind
  isResolved : Bool
deriving DecidableEq, Repr

/-- The virtual entry node (types.ts, EntryNode). -/
structure EntryNode where
  id : String
  name : String
  targets : List String
deriving DecidableEq, Repr

/-- A cluster of nodes belonging to the same package/module (types.ts,
Cluster). -/
structure Cluster where
  id : String
  label : String
  nodeIds : List String
  parent : Option String
deriving DecidableEq, Repr

/-- Entry point config rules (types.ts, EntryPointConfig).  The rule tags
function and export are Lean keywords, hence the suffixed names. -/
inductive EntryPointConfig where
  | file (pattern : String)
  | functionRule (name : String)
  | decorator (name : String)
  | exportRule (pattern : String)
deriving DecidableEq, Repr

/-- Result from a language-specific analyzer (types.ts, AnalyzerResult). -/
structure AnalyzerResult where
  nodes : List GraphNode
  edges : List GraphEdge
  files : Nat
deriving DecidableEq, Repr

/-- JS String.prototype.startsWith, evaluated on the character list so that
proofs can compute with it (the library String.startsWith does not reduce in
the kernel). -/
def strStartsWith (s pre : String) : Bool :=
  pre.data.isPrefixOf s.data

/-- JS String.prototype.split with a single-character separator, on character
lists. -/
def splitChar (sep : Char) : List Char → List (List Char)
  | [] => [[]]
  | c :: cs =>
      match splitChar sep cs with
      | [] => [[]]
      | seg :: rest => if c == sep then [] :: seg :: rest else (c :: seg) :: rest

/-- JS s.split with separator the forward slash. -/
def splitSlash (s : String) : List String :=
  (splitChar '/' s.data).map String.mk

/-- JS array.join with separator the forward slash. -/
def joinSlash : List String → String
  | [] => ""
  | [x] => x
  | x :: rest => x ++ "/" ++ joinSlash rest

/-- JavaScript substring containment, modelling String.prototype.includes. -/
def strIncludes (s pat : String) : Bool :=
  (List.range (s.data.length + 1)).any fun i => pat.data.isPrefixOf (s.data.drop i)

/-- entry-points.ts, isEntryPoint: check whether a node matches a single entry
point config rule.  Glob matching is performed by the external minimatch
library, passed here as the function mm. -/
def isEntryPointRule (mm : String → String → Bool) (node : GraphNode)
    (config : EntryPointConfig) : Bool :=
  match config with
  | .file pattern => mm node.filePath pattern && node.visibility == .exported
  | .functionRule name =>
      node.name == name || node.qualifiedName == name || node.id == name
  | .decorator name =>
      node.decorators.any fun d => d == name || strIncludes d name
  | .exportRule pattern => mm node.filePath pattern && node.visibility == .exported

/-- entry-points.ts, autoDetectEntryPoint: language-convention entry points. -/
def autoDetectEntryPoint (node : GraphNode) : Bool :=
  if node.language == .go then
    node.name == "main" || node.name == "init" ||
    strStartsWith node.name "Test" || strStartsWith node.name "Benchmark" ||
    strStartsWith node.name "Example"
  else if node.language == .python then
    node.name == "__main__"
  else
    false

/-- entry-points.ts, matchEntryPoints: marks matched nodes as entry points and
returns the updated node list together with the entry id set (a JS Set keeps
insertion order, modelled as a duplicate-free list).  A node whose
isEntryPoint flag was already true but that matches no rule keeps its flag yet
is not added to the returned id set, exactly as in the source.  This is the
per-node loop body. -/
def matchStep (mm : String → String → Bool)
    (entryPointConfigs : List EntryPointConfig)
    (acc : List GraphNode × List String) (node : GraphNode) :
    List GraphNode × List String :=
  let matched := entryPointConfigs.any (isEntryPointRule mm node) ||
    autoDetectEntryPoint node
  let node1 := if matched then { node with isEntryPoint := true } else node
  let ids := if matched && !acc.2.contains node.id then acc.2 ++ [node.id] else acc.2
  (acc.1 ++ [node1], ids)

/-- entry-points.ts, matchEntryPoints as the fold of matchStep over the node
list. -/
def matchEntryPoints (mm : String → String → Bool) (nodes : List GraphNode)
    (entryPointConfigs : List EntryPointConfig) : List GraphNode × List String :=
  nodes.foldl (matchStep mm entryPointConfigs) ([], [])

/-- entry-points.ts, propagateEntryPoints: the adjacency map is a JS Map from
source id to the list of target ids, in insertion order. -/
def adjUpsert (m : List (String × List String)) (k t : String) :
    List (String × List String) :=
  match m with
  | [] => [(k, [t])]
  | (key, ts) :: rest =>
      if key == k then (key, ts ++ [t]) :: rest else (key, ts) :: adjUpsert rest k t

/-- Adjacency-list construction from the edge list (propagateEntryPoints,
first loop). -/
def buildAdjacency (edges : List GraphEdge) : List (String × List String) :=
  edges.foldl (fun m e => adjUpsert m e.source e.target) []

/-- Map lookup with the JS default of an empty target list. -/
def adjLookup (m : List (String × List String)) (k : String) : List String :=
  match m with
  | [] => []
  | (key, ts) :: rest => if key == k then ts else adjLookup rest k

/-- The BFS loop of propagateEntryPoints.  Each iteration shifts one id from
the queue; fuel bounds the number of iterations and is chosen large enough
below (every push stems from one adjacency entry, so the loop runs at most
queue-length plus edge-count times). -/
def bfsStep (adj : List (String × List String)) :
    Nat → List String → List String → List String
  | 0, _, reachable => reachable
  | _ + 1, [], reachable => reachable
  | fuel + 1, nodeId :: queue, reachable =>
      if reachable.contains nodeId then bfsStep adj fuel queue reachable
      else
        let reachable1 := reachable ++ [nodeId]
        let neighbors := adjLookup adj nodeId
        let queue1 := queue ++ neighbors.filter (fun nb => !reachable1.contains nb)
        bfsStep adj fuel queue1 reachable1

/-- The visited set of the BFS from the entry-id set over outgoing edges
(propagateEntryPoints, second loop). -/
def bfsReachable (edges : List GraphEdge) (entryPointIds : List String) :
    List String :=
  bfsStep (buildAdjacency edges)
    (entryPointIds.length + edges.length + 1) entryPointIds []

/-- The classification step of propagateEntryPoints (its final loop). -/
def classifyNode (reachable : List String) (node : GraphNode) : GraphNode :=
  if node.isEntryPoint then
    { node with status := .entry, color := .blue }
  else if reachable.contains node.id then
    { node with
      status := .live
      color := if node.unusedParameters.length > 0 then .yellow else .green }
  else
    { node with
      status := .dead
      color := if node.unusedParameters.length > 0 then .orange else .red }

/-- entry-points.ts, propagateEntryPoints: BFS liveness propagation followed by
classification.  The source mutates the node array in place; the embedding
returns the updated list. -/
def propagateEntryPoints (nodes : List GraphNode) (edges : List GraphEdge)
    (entryPointIds : List String) : List GraphNode :=
  nodes.map (classifyNode (bfsReachable edges entryPointIds))

/-- entry-points.ts, createEntryNode. -/
def createEntryNode (entryPointIds : List String) : EntryNode :=
  { id := "__entry__", name := "External Callers", targets := entryPointIds }

/-- Dead code statistics (types.ts, DeadCodeStats).  The byPackage record is an
association list in key insertion order. -/
structure DeadCodeStats where
  count : Nat
  percentage : ℚ
  byPackage : List (String × Nat)
deriving DecidableEq, Repr

/-- Unused parameter statistics (types.ts, UnusedParamStats). -/
structure UnusedParamStats where
  count : Nat
  percentage : ℚ
  byPackage : List (String × Nat)
deriving DecidableEq, Repr

/-- Entry point statistics (types.ts, EntryPointStats). -/
structure EntryPointStats where
  count : Nat
  functions : List String
deriving DecidableEq, Repr

/-- Large function info (types.ts, LargeFunctionInfo). -/
structure LargeFunctionInfo where
  id : String
  linesOfCode : Nat
deriving DecidableEq, Repr

/-- Summary statistics (types.ts, GraphStats). -/
structure GraphStats where
  deadFunctions : DeadCodeStats
  unusedParameters : UnusedParamStats
  entryPoints : EntryPointStats
  largestFunctions : List LargeFunctionInfo
deriving DecidableEq, Repr

/-- The assembled graph (the fields of the CodeGraph artifact that the
graph-builder computes; the metadata timestamps and configuration echo are
impure or pass-through and carried as the plain totals instead). -/
structure CodeGraphCore where
  nodes : List GraphNode
  edges : List GraphEdge
  entryNode : EntryNode
  clusters : List Cluster
  stats : GraphStats
  totalFunctions : Nat
  totalEdges : Nat
  totalDeadFunctions : Nat
  totalUnusedParameters : Nat
deriving DecidableEq, Repr

/-- graph-builder, buildClusters: a JS Map from packageOrModule to node ids in
insertion order, then one cluster per entry. -/
def buildClusters (nodes : List GraphNode) : List Cluster :=
  let clusterMap := nodes.foldl (fun m n => adjUpsert m n.packageOrModule n.id) []
  clusterMap.map fun kv =>
    let parts := splitSlash kv.1
    let lastPart := parts.getLastD ""
    let label := if lastPart == "" then kv.1 else lastPart
    let parent :=
      if parts.length > 1 then some (joinSlash parts.dropLast) else none
    { id := kv.1, label := label, nodeIds := kv.2, parent := parent }

/-- Increment of a byPackage record entry, first-seen key order
(computeStats, the two byPackage loops). -/
def recordBump (m : List (String × Nat)) (k : String) : List (String × Nat) :=
  match m with
  | [] => [(k, 1)]
  | (key, c) :: rest =>
      if key == k then (key, c + 1) :: rest else (key, c) :: recordBump rest k

/-- Stable insertion for the descending sort by linesOfCode used for
largestFunctions (JS Array.prototype.sort is stable). -/
def insertByLinesDesc (x : GraphNode) : List GraphNode → List GraphNode
  | [] => [x]
  | y :: ys =>
      if y.linesOfCode ≥ x.linesOfCode then y :: insertByLinesDesc x ys
      else x :: y :: ys

/-- Stable descending sort by linesOfCode. -/
def sortByLinesDesc (nodes : List GraphNode) : List GraphNode :=
  nodes.foldl (fun acc n => insertByLinesDesc n acc) []

/-- graph-builder, computeStats. -/
def computeStats (nodes : List GraphNode) (entryPointIds : List String) :
    GraphStats :=
  let deadNodes := nodes.filter fun n => n.status = NodeStatus.dead
  let unusedParamNodes := nodes.filter fun n => n.unusedParameters.length > 0
  let total := nodes.length
  let deadByPackage := deadNodes.foldl (fun m n => recordBump m n.packageOrModule) []
  let unusedByPackage :=
    unusedParamNodes.foldl (fun m n => recordBump m n.packageOrModule) []
  let largestFunctions :=
    ((sortByLinesDesc nodes).take 10).map fun n =>
      LargeFunctionInfo.mk n.id n.linesOfCode
  { deadFunctions :=
      { count := deadNodes.length
        percentage :=
          if total > 0 then
            ((round ((deadNodes.length : ℚ) / (total : ℚ) * 10000) : ℤ) : ℚ) / 100
          else 0
        byPackage := deadByPackage }
    unusedParameters :=
      { count := unusedParamNodes.length
        percentage :=
          if total > 0 then
            ((round ((unusedParamNodes.length : ℚ) / (total : ℚ) * 10000) : ℤ) : ℚ) / 100
          else 0
        byPackage := unusedByPackage }
    entryPoints := { count := entryPointIds.length, functions := entryPointIds }
    largestFunctions := largestFunctions }

/-- graph-builder, runAnalysis: the pure pipeline from an analyzer result to
the artifact (analyzer invocation, wall-clock timing and timestamping are
impure and happen before and after this pipeline). -/
def runAnalysisCore (mm : String → String → Bool) (result : AnalyzerResult)
    (entryPoints : List EntryPointConfig) : CodeGraphCore :=
  let matched := matchEntryPoints mm result.nodes entryPoints
  let nodes := propagateEntryPoints matched.1 result.edges matched.2
  let clusters := buildClusters nodes
  let entryNode := createEntryNode matched.2
  let stats := computeStats nodes matched.2
  let deadCount := (nodes.filter fun n => n.status = NodeStatus.dead).length
  let unusedParamCount := (nodes.filter fun n => n.unusedParameters.length > 0).length
  { nodes := nodes
    edges := result.edges
    entryNode := entryNode
    clusters := clusters
    stats := stats
    totalFunctions := nodes.length
    totalEdges := result.edges.length
    totalDeadFunctions := deadCount
    totalUnusedParameters := unusedParamCount }

/-- go-analyzer.ts, GoAnalyzer.analyze, output post-processing: keep only nodes
whose filePath is in the resolved file set, stamp language go, and keep only
edges whose source and target are both ids of the retained nodes. -/
def goAnalyzeFilter (parsedNodes : List GraphNode) (parsedEdges : List GraphEdge)
    (files : List String) : AnalyzerResult :=
  let nodes := (parsedNodes.filter fun n => files.contains n.filePath).map
    fun n => { n with language := Language.go }
  let nodeIds := nodes.map (·.id)
  let edges := parsedEdges.filter fun e =>
    nodeIds.contains e.source && nodeIds.contains e.target
  { nodes := nodes, edges := edges, files := files.length }

/-- Go filepath.Dir for clean forward-slash relative paths (used by the Go
helper for packageOrModule). -/
def goDirOf (p : String) : String :=
  let parts := splitSlash p
  if parts.length ≤ 1 then "." else joinSlash parts.dropLast

/-- Go ast.IsExported: the name starts with an upper-case letter. -/
def isGoExported (name : String) : Bool :=
  match name.data with
  | [] => false
  | c :: _ => c.isUpper

/-- go-helper main.go, buildNodeTyped: node construction for a typed function
declaration.  The receiver is the receiver type name for methods; parameter
extraction (checkParametersTyped) runs separately and its results are passed
in. -/
def buildNodeTyped (relPath pkgName name : String) (receiver : Option String)
    (startLine endLine : Nat) (params : List Parameter)
    (unusedParams : List String) : GraphNode :=
  let kind := match receiver with
    | some _ => FunctionKind.method
    | none => FunctionKind.function
  let qualified := match receiver with
    | some r => r ++ "." ++ name
    | none => name
  let nodeID := relPath ++ ":" ++ qualified
  let visibility := if isGoExported name then Visibility.exported else .module
  let isEntry := (name == "main" && pkgName == "main") || name == "init" ||
    strStartsWith name "Test" || strStartsWith name "Benchmark" ||
    strStartsWith name "Example"
  { id := nodeID
    name := name
    qualifiedName := relPath ++ ":" ++ qualified
    filePath := relPath
    startLine := startLine
    endLine := endLine
    language := .go
    kind := kind
    visibility := visibility
    isEntryPoint := isEntry
    parameters := params
    unusedParameters := unusedParams
    packageOrModule := if goDirOf relPath == "." then pkgName else goDirOf relPath
    linesOfCode := endLine - startLine + 1
    status := .dead
    color := .red
    decorators := [] }

/-- go-helper main.go, phase 2b: the synthetic var-init node for a file whose
package-level var/const initializers reference in-project functions.  Emitted
with isEntryPoint true and status entry. -/
def varInitNode (relPath pkgName : String) : GraphNode :=
  { id := relPath ++ ":__var_init__"
    name := "__var_init__"
    qualifiedName := relPath ++ ":__var_init__"
    filePath := relPath
    startLine := 1
    endLine := 1
    language := .go
    kind := .init
    visibility := .module
    isEntryPoint := true
    parameters := []
    unusedParameters := []
    packageOrModule := if goDirOf relPath == "." then pkgName else goDirOf relPath
    linesOfCode := 1
    status := .entry
    color := .blue
    decorators := [] }

/-- go-helper main.go, phase 2b: one varinit edge from the synthetic node to
each function referenced in the var/const initializers. -/
def varInitEdge (relPath targetID : String) : GraphEdge :=
  { source := relPath ++ ":__var_init__"
    target := targetID
    callSite := { filePath := relPath, line := 1, column := 1 }
    kind := .varinit
    isResolved := true }

/-- go-helper main.go, addMethodEdgesForType: edges from a constructor to every
method of the returned concrete type.  Each input entry is the objToNodeID
lookup for one method of the method set (none when the method is not an
in-project node).  The Go struct literal sets Source, Target, CallSite and
Kind only, so IsResolved is left at the Go zero value false and the call site
at its zero value. -/
def addMethodEdgesForType (sourceID : String) (methodNodeIds : List (Option String))
    (edges : List GraphEdge) : List GraphEdge :=
  methodNodeIds.foldl
    (fun es mid =>
      match mid with
      | none => es
      | some methodID =>
          if methodID == sourceID then es
          else es ++ [{ source := sourceID
                        target := methodID
                        callSite := { filePath := "", line := 0, column := 0 }
                        kind := .provided
                        isResolved := false }])
    edges

/-- One identifier occurrence inside a function body, as seen by the body walk
of the TypeScript parameter checker: the identifier text, whether it occurs as
the name of a property-access expression (the right side of a dot) and whether
it occurs as the declared name of a parameter. -/
structure IdentOccurrence where
  text : String
  isPropertyNameOfAccess : Bool
  isParamName : Bool
deriving DecidableEq, Repr

/-- ts-param-checker, isIdentifierUsedInBody: an identifier equal to the name
counts unless it is the property name of a member access or the declaring
parameter name itself. -/
def isIdentifierUsedInBody (name : String) (body : List IdentOccurrence) : Bool :=
  body.any fun o => o.text == name && !o.isPropertyNameOfAccess && !o.isParamName

/-- A TypeScript binding name: a plain identifier or an object/array binding
pattern whose elements are again binding names. -/
inductive BindingName where
  | ident (text : String)
  | objPattern (elems : List BindingName)
  | arrPattern (elems : List BindingName)

mutual

/-- ts-param-checker, isDestructuredParamUsed: true when any binding inside
the pattern is used (bindings starting with an underscore are skipped). -/
def isDestructuredParamUsed (pat : BindingName) (body : List IdentOccurrence) :
    Bool :=
  match pat with
  | .ident _ => false
  | .objPattern elems => bindingElemsUsed elems body
  | .arrPattern elems => bindingElemsUsed elems body

/-- The element loop of isDestructuredParamUsed. -/
def bindingElemsUsed (elems : List BindingName) (body : List IdentOccurrence) :
    Bool :=
  match elems with
  | [] => false
  | .ident t :: rest =>
      if strStartsWith t "_" then bindingElemsUsed rest body
      else if isIdentifierUsedInBody t body then true
      else bindingElemsUsed rest body
  | pat :: rest =>
      if isDestructuredParamUsed pat body then true else bindingElemsUsed rest body

end

mutual

/-- The source text of a binding name (ts getText), rendered canonically. -/
def bindingNameText (pat : BindingName) : String :=
  match pat with
  | .ident t => t
  | .objPattern elems => "\x7b " ++ bindingListText elems ++ " \x7d"
  | .arrPattern elems => "[" ++ bindingListText elems ++ "]"

/-- Comma-separated rendering of pattern elements. -/
def bindingListText : List BindingName → String
  | [] => ""
  | [e] => bindingNameText e
  | e :: rest => bindingNameText e ++ ", " ++ bindingListText rest

end

/-- A TypeScript parameter declaration: its binding name and the text of the
declared type, when present. -/
structure TsParamDecl where
  name : BindingName
  typeText : Option String

/-- ts-param-checker, getParamName: identifier text, or the source text of the
binding pattern. -/
def getParamName (p : TsParamDecl) : String :=
  bindingNameText p.name

/-- ts-param-checker, isParameterUsed.  A function without a body (none) means
declaration only, assume used. -/
def isParameterUsed (p : TsParamDecl) (body : Option (List IdentOccurrence)) :
    Bool :=
  match body with
  | none => true
  | some b =>
      match p.name with
      | .ident t => isIdentifierUsedInBody t b
      | pat => isDestructuredParamUsed pat b

/-- ts-param-checker, extractSingleParam: names starting with an underscore are
treated as intentionally unused, hence used. -/
def extractSingleParam (p : TsParamDecl) (position : Nat)
    (body : Option (List IdentOccurrence)) : Parameter :=
  let name := getParamName p
  if strStartsWith name "_" then
    { name := name, type := p.typeText, isUsed := true, position := position }
  else
    { name := name, type := p.typeText
      isUsed := isParameterUsed p body, position := position }

/-- ts-param-checker, extractParameters: one Parameter per declared parameter;
a parameter that is not used contributes its name (for a pattern, the pattern
source text) to unusedParameters. -/
def extractParameters (params : List TsParamDecl)
    (body : Option (List IdentOccurrence)) : List Parameter × List String :=
  params.enum.foldl
    (fun acc ip =>
      let paramInfo := extractSingleParam ip.2 ip.1 body
      (acc.1 ++ [paramInfo],
       if !paramInfo.isUsed then acc.2 ++ [paramInfo.name] else acc.2))
    ([], [])

/-- TypeScript syntax modifiers relevant to getVisibility. -/
inductive TsModifier where
  | exportKeyword
  | privateKeyword
  | protectedKeyword
  | publicKeyword
  | asyncKeyword
deriving DecidableEq, Repr

/-- TypeScript syntax kinds relevant to getVisibility and extractNodes. -/
inductive TsNodeKind where
  | arrowFunction
  | functionExpression
  | functionDeclaration
  | methodDeclaration
  | constructorDeclaration
  | getAccessor
  | setAccessor
  | variableDeclaration
  | variableDeclarationList
  | variableStatement
  | propertyDeclaration
  | sourceFile
deriving DecidableEq, Repr

/-- A TypeScript syntax node as seen by getVisibility: its kind and its own
modifier list. -/
structure TsSynNode where
  kind : TsNodeKind
  modifiers : List TsModifier
deriving DecidableEq, Repr

/-- The modifier loop of ts-analyzer getVisibility: first matching modifier
decides (export, private, protected, public); other modifiers are skipped. -/
def modifierVisibility : List TsModifier → Option Visibility
  | [] => none
  | .exportKeyword :: _ => some .exported
  | .privateKeyword :: _ => some .privateV
  | .protectedKeyword :: _ => some .internal
  | .publicKeyword :: _ => some .publicV
  | .asyncKeyword :: rest => modifierVisibility rest

/-- ts-analyzer.ts, getVisibility: own modifiers first; then, only when the
immediate parent is a VariableStatement with an export modifier, exported;
then public for class methods and constructors; otherwise module. -/
def getVisibility (node : TsSynNode) (parent : Option TsSynNode) : Visibility :=
  match modifierVisibility node.modifiers with
  | some v => v
  | none =>
      let parentExported :=
        match parent with
        | some p => p.kind == TsNodeKind.variableStatement && p.modifiers.contains .exportKeyword
        | none => false
      if parentExported then .exported
      else if node.kind == TsNodeKind.methodDeclaration || node.kind == TsNodeKind.constructorDeclaration
        then .publicV
      else .module

/-- ts-analyzer.ts, extractNodes with createNode: for an arrow-function or
function-expression initializer bound to a variable declarator, getVisibility
is invoked on the initializer node itself.  In the TypeScript AST the parent
chain of the initializer is ArrowFunction, then VariableDeclaration, then
VariableDeclarationList, then VariableStatement, so the parent that
getVisibility inspects is the VariableDeclaration, which never carries
modifiers; the export modifier lives on the VariableStatement two levels
higher and is given here as the first argument. -/
def extractedArrowVisibility (_stmtModifiers : List TsModifier)
    (arrowModifiers : List TsModifier) : Visibility :=
  getVisibility ⟨.arrowFunction, arrowModifiers⟩ (some ⟨.variableDeclaration, []⟩)

/-- Drop the common leading segments of two split paths. -/
def dropCommonPrefix : List String → List String → List String × List String
  | x :: xs, y :: ys =>
      if x == y then dropCommonPrefix xs ys else (x :: xs, y :: ys)
  | xs, ys => (xs, ys)

/-- Node path.relative for absolute forward-slash paths: walk up from the
first path with dot-dot segments, then down into the second. -/
def pathRelative (frm target : String) : String :=
  let p := dropCommonPrefix ((splitSlash frm).filter (fun s => s ≠ ""))
    ((splitSlash target).filter (fun s => s ≠ ""))
  joinSlash (p.1.map (fun _ => "..") ++ p.2)

/-- ts-call-resolver, resolveCallExpression, resolved branch: the edge built
after successful symbol resolution.  The call-site filePath is
sourceFile.fileName taken verbatim, which is the absolute file name the
program was created with; line and column are the 0-indexed position plus
one. -/
def resolvedCallEdge (sourceNodeId targetId : String) (isNew isPropertyAccess : Bool)
    (fileName : String) (line0 character0 : Nat) : GraphEdge :=
  { source := sourceNodeId
    target := targetId
    callSite := { filePath := fileName, line := line0 + 1, column := character0 + 1 }
    kind := if isNew then .constructorK else if isPropertyAccess then .method else .direct
    isResolved := true }

/-- ts-call-resolver, resolveCallExpression, element-access branch: the
dynamic-call edge for obj[key]() with a sentinel target; here the filePath is
made relative to the process working directory (not the project root). -/
def dynamicCallEdge (sourceNodeId exprText cwd fileName : String)
    (line0 character0 : Nat) : GraphEdge :=
  { source := sourceNodeId
    target := "[dynamic:" ++ exprText ++ "]"
    callSite := { filePath := pathRelative cwd fileName
                  line := line0 + 1, column := character0 + 1 }
    kind := .dynamic
    isResolved := false }

/-- Spec section 4.4: the color table as a pure function of status and
unused-parameter presence. -/
def specColorTable : NodeStatus → Bool → NodeColor
  | .entry, _ => .blue
  | .live, b => if b then .yellow else .green
  | .dead, b => if b then .orange else .red

/-- Spec section 4.7: percentage formula round(count * 10000 / total) / 100,
zero when total is zero. -/
def specPercentage (count total : Nat) : ℚ :=
  if total = 0 then 0
  else ((round (((count : ℚ) * 10000) / (total : ℚ)) : ℤ) : ℚ) / 100

/-- Fixture node builder mirroring createTestNode in test/entry-points.test.ts. -/
def testNode (id name : String) (unusedParams : List String) : GraphNode :=
  { id := id
    name := name
    qualifiedName := id
    filePath := "test.ts"
    startLine := 1
    endLine := 10
    language := .typescript
    kind := .function
    visibility := .exported
    isEntryPoint := false
    parameters := []
    unusedParameters := unusedParams
    packageOrModule := "test"
    linesOfCode := 10
    status := .dead
    color := .red
    decorators := [] }

/-- Scenario S3 of the spec: mutualA and mutualB call each other and no entry
rule touches them. -/
def s3Nodes : List GraphNode :=
  [testNode "m.ts:mutualA" "mutualA" [], testNode "m.ts:mutualB" "mutualB" []]

/-- The two mutual-recursion edges of scenario S3. -/
def s3Edges : List GraphEdge :=
  [{ source := "m.ts:mutualA", target := "m.ts:mutualB"
     callSite := { filePath := "m.ts", line := 1, column := 1 }
     kind := .direct, isResolved := true },
   { source := "m.ts:mutualB", target := "m.ts:mutualA"
     callSite := { filePath := "m.ts", line := 2, column := 1 }
     kind := .direct, isResolved := true }]

/-- The entry-point branch of classifyNode. -/
theorem classifyNode_entry (reachable : List String) (m : GraphNode)
    (h1 : m.isEntryPoint = true) :
    classifyNode reachable m = { m with status := .entry, color := .blue } := by
  unfold classifyNode
  rw [h1]
  simp

/-- The reachable branch of classifyNode. -/
theorem classifyNode_live (reachable : List String) (m : GraphNode)
    (h1 : m.isEntryPoint = false) (h2 : reachable.contains m.id = true) :
    classifyNode reachable m =
      { m with
        status := .live
        color := if m.unusedParameters.length > 0 then .yellow else .green } := by
  unfold classifyNode
  rw [h1, h2]
  simp

/-- The unreachable branch of classifyNode. -/
theorem classifyNode_dead (reachable : List String) (m : GraphNode)
    (h1 : m.isEntryPoint = false) (h2 : reachable.contains m.id = false) :
    classifyNode reachable m =
      { m with
        status := .dead
        color := if m.unusedParameters.length > 0 then .orange else .red } := by
  unfold classifyNode
  rw [h1, h2]
  simp

/-- C3: the reachability engine classifies a node dead whenever it is not an
entry point and its id is not in the visited set of the BFS from the entry-id
set over outgoing edges; incoming edges alone never promote a node to live. -/
theorem propagate_notReachable_dead (nodes : List GraphNode)
    (edges : List GraphEdge) (entryPointIds : List String) (n : GraphNode)
    (hmem : n ∈ propagateEntryPoints nodes edges entryPointIds)
    (hentry : n.isEntryPoint = false)
    (hreach : (bfsReachable edges entryPointIds).contains n.id = false) :
    n.status = NodeStatus.dead := by
  rcases List.mem_map.mp hmem with ⟨m, _, rfl⟩
  cases h1 : m.isEntryPoint with
  | true =>
      rw [classifyNode_entry _ _ h1] at hentry
      simp at hentry
      rw [h1] at hentry
      exact absurd hentry (by simp)
  | false =>
      cases h2 : (bfsReachable edges entryPointIds).contains m.id with
      | true =>
          rw [classifyNode_live _ _ h1 h2] at hreach
          simp at hreach h2
          exact absurd h2 hreach
      | false =>
          rw [classifyNode_dead _ _ h1 h2]

/-- Witness for C3 at scenario S3: with no entry ids, mutualA is not BFS
reachable and is classified dead by the engine. -/
theorem propagate_notReachable_dead_witness :
    (bfsReachable s3Edges []).contains "m.ts:mutualA" = false ∧
    (testNode "m.ts:mutualA" "mutualA" []).status = NodeStatus.dead :=
  ⟨by decide,
   propagate_notReachable_dead s3Nodes s3Edges []
     (testNode "m.ts:mutualA" "mutualA" []) (by decide) (by decide) (by decide)⟩

/-- C8: after propagation, every node color equals the table lookup of section 4.4 of the spec
from its status and the presence of unused parameters. -/
theorem propagate_color_table (nodes : List GraphNode) (edges : List GraphEdge)
    (entryPointIds : List String) (n : GraphNode)
    (hmem : n ∈ propagateEntryPoints nodes edges entryPointIds) :
    n.color = specColorTable n.status (!n.unusedParameters.isEmpty) := by
  rcases List.mem_map.mp hmem with ⟨m, _, rfl⟩
  cases h1 : m.isEntryPoint with
  | true =>
      rw [classifyNode_entry _ _ h1]
      simp [specColorTable]
  | false =>
      cases h2 : (bfsReachable edges entryPointIds).contains m.id with
      | true =>
          rw [classifyNode_live _ _ h1 h2]
          cases hu : m.unusedParameters with
          | nil => simp [specColorTable, hu]
          | cons a l => simp [specColorTable, hu]
      | false =>
          rw [classifyNode_dead _ _ h1 h2]
          cases hu : m.unusedParameters with
          | nil => simp [specColorTable, hu]
          | cons a l => simp [specColorTable, hu]

/-- Nodes of the live-with-unused-parameter fixture from
test/entry-points.test.ts (A is an entry, B has an unused parameter x). -/
def c8Nodes : List GraphNode :=
  [{ testNode "test.ts:A" "A" [] with isEntryPoint := true },
   testNode "test.ts:B" "B" ["x"]]

/-- The single direct edge of that fixture. -/
def c8Edges : List GraphEdge :=
  [{ source := "test.ts:A", target := "test.ts:B"
     callSite := { filePath := "a.ts", line := 1, column := 1 }
     kind := .direct, isResolved := true }]

/-- The classified value of node B after propagation: live and yellow. -/
def c8NodeB : GraphNode :=
  { testNode "test.ts:B" "B" ["x"] with status := .live, color := .yellow }

/-- Witness for C8: the live node with an unused parameter is colored yellow,
matching the table. -/
theorem propagate_color_table_witness :
    c8NodeB.color = specColorTable c8NodeB.status (!c8NodeB.unusedParameters.isEmpty) :=
  propagate_color_table c8Nodes c8Edges ["test.ts:A"] c8NodeB (by decide)

/-- Filtering on nonempty unusedParameters agrees with the positive-length
filter computeStats uses. -/
theorem length_filter_unused_ne_nil (nodes : List GraphNode) :
    (nodes.filter fun n => n.unusedParameters ≠ []).length =
      (nodes.filter fun n => n.unusedParameters.length > 0).length := by
  induction nodes with
  | nil => rfl
  | cons a l ih =>
      by_cases h : a.unusedParameters = []
      · simp only [List.filter_cons, h]
        simpa using ih
      · simp only [List.filter_cons, h]
        simp only [List.length_pos]

/-- The percentage written as in computeStats equals the spec formula
round(count times 10000 over total) over 100, zero when total is zero. -/
theorem percentage_formula (c t : Nat) :
    (if t > 0 then ((round (((c : ℚ)) / (t : ℚ) * 10000) : ℤ) : ℚ) / 100 else 0) =
      specPercentage c t := by
  unfold specPercentage
  rcases Nat.eq_zero_or_pos t with h | h
  · subst h
    simp
  · rw [if_pos h, if_neg (Nat.pos_iff_ne_zero.mp h), div_mul_eq_mul_div]

/-- C9: in the emitted stats, deadFunctions.count is the number of dead nodes,
unusedParameters.count the number of nodes with nonempty unusedParameters, and
each percentage is round(count * 10000 / total) / 100 with total the number of
nodes, zero when there are no nodes. -/
theorem stats_counts_and_percentages (mm : String → String → Bool)
    (result : AnalyzerResult) (cfgs : List EntryPointConfig) :
    ((runAnalysisCore mm result cfgs).stats.deadFunctions.count =
      ((runAnalysisCore mm result cfgs).nodes.filter
        (fun n => n.status = NodeStatus.dead)).length) ∧
    ((runAnalysisCore mm result cfgs).stats.unusedParameters.count =
      ((runAnalysisCore mm result cfgs).nodes.filter
        (fun n => n.unusedParameters ≠ [])).length) ∧
    ((runAnalysisCore mm result cfgs).stats.deadFunctions.percentage =
      specPercentage (runAnalysisCore mm result cfgs).stats.deadFunctions.count
        (runAnalysisCore mm result cfgs).nodes.length) ∧
    ((runAnalysisCore mm result cfgs).stats.unusedParameters.percentage =
      specPercentage (runAnalysisCore mm result cfgs).stats.unusedParameters.count
        (runAnalysisCore mm result cfgs).nodes.length) := by
  refine ⟨rfl, ?_, ?_, ?_⟩
  · rw [length_filter_unused_ne_nil]
    exact rfl
  · exact percentage_formula _ _
  · exact percentage_formula _ _

/-- Go fixture nodes for the analyzer post-filter. -/
def c10Nodes : List GraphNode :=
  [buildNodeTyped "app.go" "main" "main" none 3 5 [] [],
   buildNodeTyped "app.go" "main" "run" none 7 9 [] []]

/-- The retained in-project edge of the Go post-filter fixture. -/
def c10KeptEdge : GraphEdge :=
  { source := "app.go:main", target := "app.go:run"
    callSite := { filePath := "app.go", line := 4, column := 2 }
    kind := .direct, isResolved := true }

/-- Go fixture edges: one in-project edge, one edge into a filtered-out file,
one unresolved sentinel-target edge. -/
def c10Edges : List GraphEdge :=
  [c10KeptEdge,
   { source := "app.go:run", target := "lib.go:helper"
     callSite := { filePath := "app.go", line := 8, column := 2 }
     kind := .direct, isResolved := true },
   { source := "app.go:run", target := "[dynamic:cb()]"
     callSite := { filePath := "app.go", line := 9, column := 2 }
     kind := .dynamic, isResolved := false }]

/-- C10: every edge surviving the GoAnalyzer.analyze post-filter has a source
and a target that are both ids of returned nodes; edges whose endpoint was
filtered out with its file, or whose target is not a node id (such as a
dynamic sentinel), are removed. -/
theorem goAnalyzeFilter_edge_closure (parsedNodes : List GraphNode)
    (parsedEdges : List GraphEdge) (files : List String) (e : GraphEdge)
    (he : e ∈ (goAnalyzeFilter parsedNodes parsedEdges files).edges) :
    (∃ n ∈ (goAnalyzeFilter parsedNodes parsedEdges files).nodes, n.id = e.source) ∧
    (∃ n ∈ (goAnalyzeFilter parsedNodes parsedEdges files).nodes, n.id = e.target) := by
  have h := List.mem_filter.mp he
  have h2 := h.2
  simp only [Bool.and_eq_true] at h2
  have hs := h2.1
  have ht := h2.2
  have hs2 := List.mem_of_elem_eq_true hs
  have ht2 := List.mem_of_elem_eq_true ht
  constructor
  · rcases List.mem_map.mp hs2 with ⟨n, hn, hid⟩
    exact ⟨n, hn, hid⟩
  · rcases List.mem_map.mp ht2 with ⟨n, hn, hid⟩
    exact ⟨n, hn, hid⟩

/-- Witness for C10 at the Go fixture: the retained edge has node ids at both
endpoints. -/
theorem goAnalyzeFilter_edge_closure_witness :
    (∃ n ∈ (goAnalyzeFilter c10Nodes c10Edges ["app.go"]).nodes,
       n.id = c10KeptEdge.source) ∧
    (∃ n ∈ (goAnalyzeFilter c10Nodes c10Edges ["app.go"]).nodes,
       n.id = c10KeptEdge.target) :=
  goAnalyzeFilter_edge_closure c10Nodes c10Edges ["app.go"] c10KeptEdge (by decide)

/-- The Go var-init fixture: one file whose module-level var list references
the constructor NewRouter; the helper synthesizes the entry-pointed var-init
node and one varinit edge, and NewRouter is a plain exported constructor. -/
def c1Result : AnalyzerResult :=
  { nodes := [varInitNode "routes.go" "main",
              buildNodeTyped "routes.go" "main" "NewRouter" none 5 9 [] []]
    edges := [varInitEdge "routes.go" "routes.go:NewRouter"]
    files := 1 }

/-- C1 fails on the code: in the assembled artifact the synthesized var-init
node keeps status entry, yet the target of its varinit edge stays dead.  The
matcher returns an empty entry-id set (it never adds nodes whose isEntryPoint
flag was preset by the Go helper, and auto-detection does not match the name
of the var-init node), so the BFS never visits the referenced constructor. -/
theorem varinit_target_stays_dead :
    ((runAnalysisCore (fun _ _ => false) c1Result []).nodes.map
      fun n => (n.id, n.status)) =
      [("routes.go:__var_init__", NodeStatus.entry),
       ("routes.go:NewRouter", NodeStatus.dead)] ∧
    (runAnalysisCore (fun _ _ => false) c1Result []).edges =
      [varInitEdge "routes.go" "routes.go:NewRouter"] := by
  exact ⟨by decide, by decide⟩

/-- C2 fails on the code: the provided edge the Go helper emits from a
constructor to a method of its returned type carries isResolved false even
though its kind is provided (not dynamic) and its target is a real node id,
because the Edge literal in addMethodEdgesForType omits IsResolved and the Go
zero value of bool is false. -/
theorem provided_edge_unresolved :
    addMethodEdgesForType "svc.go:NewService" [some "svc.go:Service.Run"] [] =
      [{ source := "svc.go:NewService", target := "svc.go:Service.Run"
         callSite := { filePath := "", line := 0, column := 0 }
         kind := .provided, isResolved := false }] ∧
    EdgeKind.provided ≠ EdgeKind.dynamic ∧
    strStartsWith "svc.go:Service.Run" "[dynamic:" = false := by
  exact ⟨by decide, by decide, by decide⟩

/-- The destructuring fixture: one parameter whose pattern binds a and b, and
a body referencing only a. -/
def c4Params : List TsParamDecl :=
  [{ name := BindingName.objPattern [BindingName.ident "a", BindingName.ident "b"]
     typeText := none }]

/-- The body occurrence list of the destructuring fixture. -/
def c4Body : Option (List IdentOccurrence) :=
  some [{ text := "a", isPropertyNameOfAccess := false, isParamName := false }]

/-- C4 fails on the code: for a parameter pattern binding a and b where only a
is referenced, the extractor treats the pattern as a single parameter that
counts as used as soon as any binding is used, so unusedParameters comes out
empty and in particular does not contain b. -/
theorem destructured_param_not_reported :
    (extractParameters c4Params c4Body).2 = [] ∧
    ¬ ("b" ∈ (extractParameters c4Params c4Body).2) := by
  exact ⟨by decide, by decide⟩

/-- C6 fails on the code: an arrow-function initializer whose variable
statement carries the export modifier receives visibility module, because
getVisibility inspects only the immediate parent of the initializer, which is
the VariableDeclaration, never the VariableStatement two levels above. -/
theorem exported_arrow_visibility_module :
    extractedArrowVisibility [TsModifier.exportKeyword] [] = Visibility.module ∧
    Visibility.module ≠ Visibility.exported := by
  exact ⟨by decide, by decide⟩

/-- C7 fails on the code: for a resolved call the emitted call-site filePath
is the absolute sourceFile.fileName rather than the project-relative path,
although line and column are indeed the 0-indexed position plus one. -/
theorem resolved_callsite_absolute_path :
    (resolvedCallEdge "src/main.ts:main" "src/handler.ts:handleRequest" false false
        "/proj/src/main.ts" 9 2).callSite =
      { filePath := "/proj/src/main.ts", line := 10, column := 3 } ∧
    pathRelative "/proj" "/proj/src/main.ts" = "src/main.ts" ∧
    ("/proj/src/main.ts" : String) ≠ "src/main.ts" := by
  exact ⟨by decide, by decide, by decide⟩

/-- Lexicographic order on character lists by code point, the ascending order
of the spec ordering rules. -/
def charListLe : List Char → List Char → Bool
  | [], _ => true
  | _ :: _, [] => false
  | a :: xs, b :: ys =>
      if a.val < b.val then true
      else if b.val < a.val then false
      else charListLe xs ys

/-- Ascending string order used by the spec determinism-ordering rules. -/
def strLe (a b : String) : Bool :=
  charListLe a.data b.data

/-- A list is ascending when every adjacent pair is ordered. -/
def ascendingStrings : List String → Bool
  | [] => true
  | [_] => true
  | a :: b :: rest => strLe a b && ascendingStrings (b :: rest)

/-- Two analyzer nodes whose extraction order is not ascending id order. -/
def c5Result : AnalyzerResult :=
  { nodes := [testNode "z.ts:zeta" "zeta" [], testNode "a.ts:alpha" "alpha" []]
    edges := []
    files := 2 }

/-- C5 fails on the code: the assembled artifact keeps the node order of the
analyzer, so its node ids are not sorted ascending; no sorting pass exists
anywhere between assembly and serialization. -/
theorem assembled_nodes_not_sorted :
    ((runAnalysisCore (fun _ _ => false) c5Result []).nodes.map fun n => n.id) =
      ["z.ts:zeta", "a.ts:alpha"] ∧
    ascendingStrings ["z.ts:zeta", "a.ts:alpha"] = false := by
  exact ⟨by decide, by decide⟩

/-- classifyNode rewrites only status and color; the id is unchanged. -/
theorem classifyNode_id (reachable : List String) (m : GraphNode) :
    (classifyNode reachable m).id = m.id := by
  unfold classifyNode
  split
  · rfl
  · split <;> rfl

/-- classifyNode rewrites only status and color; packageOrModule is
unchanged. -/
theorem classifyNode_packageOrModule (reachable : List String) (m : GraphNode) :
    (classifyNode reachable m).packageOrModule = m.packageOrModule := by
  unfold classifyNode
  split
  · rfl
  · split <;> rfl

/-- Propagation preserves any node observable that classifyNode leaves
untouched, in order. -/
theorem propagate_map {α : Type} (nodes : List GraphNode) (edges : List GraphEdge)
    (entryPointIds : List String) (f : GraphNode → α)
    (hf : ∀ reachable m, f (classifyNode reachable m) = f m) :
    (propagateEntryPoints nodes edges entryPointIds).map f = nodes.map f := by
  unfold propagateEntryPoints
  rw [List.map_map]
  exact List.map_congr_left fun m _ => hf _ m

/-- The matcher fold appends exactly one updated node per input node, so any
observable unaffected by setting isEntryPoint is preserved in order. -/
theorem foldl_matchStep_map (mm : String → String → Bool)
    (cfgs : List EntryPointConfig) {α : Type} (f : GraphNode → α)
    (hf : ∀ n : GraphNode, f { n with isEntryPoint := true } = f n) :
    ∀ (ns : List GraphNode) (acc : List GraphNode × List String),
      ((ns.foldl (matchStep mm cfgs) acc).1).map f = acc.1.map f ++ ns.map f := by
  intro ns
  induction ns with
  | nil => intro acc; simp
  | cons a t ih =>
      intro acc
      rw [List.foldl_cons, ih]
      have h1 : ((matchStep mm cfgs acc a).1).map f = acc.1.map f ++ [f a] := by
        unfold matchStep
        by_cases hm : (cfgs.any (isEntryPointRule mm a) || autoDetectEntryPoint a) = true
        · simp [hm, hf]
        · simp [hm]
      rw [h1]
      simp

/-- matchEntryPoints keeps the node list in order for any observable
unaffected by the isEntryPoint flag. -/
theorem matchEntryPoints_fst_map (mm : String → String → Bool)
    (cfgs : List EntryPointConfig) {α : Type} (f : GraphNode → α)
    (hf : ∀ n : GraphNode, f { n with isEntryPoint := true } = f n)
    (nodes : List GraphNode) :
    ((matchEntryPoints mm nodes cfgs).1).map f = nodes.map f := by
  unfold matchEntryPoints
  rw [foldl_matchStep_map mm cfgs f hf nodes ([], [])]
  simp

/-- First-seen deduplication of a string list, the insertion order of a JS
Map keyed by these strings. -/
def firstSeen (xs : List String) : List String :=
  xs.foldl (fun acc x => if acc.contains x then acc else acc ++ [x]) []

/-- The key list of an adjUpsert step: unchanged when the key is present,
extended at the end otherwise. -/
theorem adjUpsert_keys (m : List (String × List String)) (k t : String) :
    (adjUpsert m k t).map Prod.fst =
      if (m.map Prod.fst).contains k then m.map Prod.fst
      else m.map Prod.fst ++ [k] := by
  induction m with
  | nil => simp [adjUpsert]
  | cons p rest ih =>
      rcases p with ⟨key, ts⟩
      unfold adjUpsert
      by_cases h : key = k
      · subst h
        simp [List.contains_cons]
      · have hne : k ≠ key := fun hkk => h hkk.symm
        have hb : (key == k) = false := by simp [h]
        simp only [hb, Bool.false_eq_true, if_false, List.map_cons, ih]
        have hcc : ((key :: rest.map Prod.fst).contains k) =
            ((rest.map Prod.fst).contains k) := by
          simp [List.contains_cons, hne]
        simp only [hcc]
        split
        · rfl
        · rfl

/-- The key list of the cluster-map fold is the first-seen package list. -/
theorem foldl_adjUpsert_keys :
    ∀ (ns : List GraphNode) (m : List (String × List String)),
      ((ns.foldl (fun m n => adjUpsert m n.packageOrModule n.id) m).map Prod.fst) =
        ns.foldl (fun acc n =>
            if acc.contains n.packageOrModule then acc
            else acc ++ [n.packageOrModule])
          (m.map Prod.fst) := by
  intro ns
  induction ns with
  | nil => intro m; rfl
  | cons a t ih =>
      intro m
      rw [List.foldl_cons, ih, adjUpsert_keys, List.foldl_cons]

/-- The cluster id of each cluster-map entry is its key. -/
theorem clusters_map_id (l : List (String × List String)) :
    ((l.map fun kv =>
      let parts := splitSlash kv.1
      let lastPart := parts.getLastD ""
      let label := if lastPart == "" then kv.1 else lastPart
      let parent :=
        if parts.length > 1 then some (joinSlash parts.dropLast) else none
      ({ id := kv.1, label := label, nodeIds := kv.2, parent := parent } : Cluster)).map
        fun c => c.id) = l.map Prod.fst := by
  rw [List.map_map]
  exact List.map_congr_left fun kv _ => rfl

/-- buildClusters lists clusters keyed in first-seen order of
packageOrModule. -/
theorem buildClusters_ids (nodes : List GraphNode) :
    (buildClusters nodes).map (fun c => c.id) =
      firstSeen (nodes.map fun n => n.packageOrModule) := by
  unfold buildClusters
  rw [clusters_map_id, foldl_adjUpsert_keys nodes []]
  unfold firstSeen
  rw [List.foldl_map]
  rfl

/-- C5 amended: no canonical reordering happens before serialization.  The
artifact keeps the node order of the analyzer (classification rewrites only status
and color, so the id sequence is unchanged), keeps the edge list exactly as
extracted, and lists clusters in first-seen order of packageOrModule. -/
theorem artifact_preserves_extraction_order (mm : String → String → Bool)
    (result : AnalyzerResult) (cfgs : List EntryPointConfig) :
    ((runAnalysisCore mm result cfgs).nodes.map fun n => n.id) =
      (result.nodes.map fun n => n.id) ∧
    (runAnalysisCore mm result cfgs).edges = result.edges ∧
    ((runAnalysisCore mm result cfgs).clusters.map fun c => c.id) =
      firstSeen (result.nodes.map fun n => n.packageOrModule) := by
  refine ⟨?_, rfl, ?_⟩
  · show ((propagateEntryPoints (matchEntryPoints mm result.nodes cfgs).1
        result.edges (matchEntryPoints mm result.nodes cfgs).2).map
          fun n => n.id) = result.nodes.map fun n => n.id
    rw [propagate_map _ _ _ _ (fun r m => classifyNode_id r m)]
    exact matchEntryPoints_fst_map mm cfgs (fun n => n.id) (fun n => rfl)
      result.nodes
  · show ((buildClusters (propagateEntryPoints
        (matchEntryPoints mm result.nodes cfgs).1 result.edges
        (matchEntryPoints mm result.nodes cfgs).2)).map fun c => c.id) =
      firstSeen (result.nodes.map fun n => n.packageOrModule)
    rw [buildClusters_ids]
    congr 1
    rw [propagate_map _ _ _ _ (fun r m => classifyNode_packageOrModule r m)]
    exact matchEntryPoints_fst_map mm cfgs (fun n => n.packageOrModule)
      (fun n => rfl) result.nodes

end Codegraph
